import Mathlib

/-!
Verification development for the UDP PID controller server
(src/main/pid_controller_server.c).

The repository ships a single C source file containing the UDP server task
(the request loop with its stream watchdog) and the process bootstrap.  The
PID engine (pid.h / pid.c) and the command dispatcher with the telemetry
stream control (commandmanager.h / commandmanager.c) are declared and called
from that file but their sources are not present under src/; where a claim
depends on them they are modelled from the specification, and each such
definition says so in its doc comment.

Modelling conventions:
- C floats and doubles are modelled as rationals; the float arithmetic
  appearing in the embedded expressions is exact at these values.
- Bytes are natural numbers (the C program stores octets in a char buffer).
- The fixed request/response buffer is a total function from its index range,
  mirroring the in-place mutation of the 9-byte stack array.
- The external dispatcher process_request is a parameter of the request-loop
  model: the server source calls it through an opaque prototype, so theorems
  about the loop hold for every dispatcher.
-/

namespace PidServer

/-- Bytes are modelled as natural numbers (octet values in the C buffer). -/
abbrev Byte := Nat

/-- Size of a C char on the target, in bytes. -/
def sizeofChar : Nat := 1

/-- Size of a C float on the target, in bytes. -/
def sizeofFloat : Nat := 4

/-- The define REQUEST_RESPONSE_BUF_SIZE, sizeof(char) + 2*sizeof(float),
line 30 of src/main/pid_controller_server.c; the comment there notes it is
the same size for both requests and responses. -/
def REQUEST_RESPONSE_BUF_SIZE : Nat := sizeofChar + 2 * sizeofFloat

/-- The define SERVER_TASK_SLEEP_TIME_MS, the 20 ms scheduling tick of the
server task (line 31). -/
def SERVER_TASK_SLEEP_TIME_MS : ℚ := 20

/-- The define NO_MSG_TIMEOUT_SECONDS, 15.0 (line 32). -/
def NO_MSG_TIMEOUT_SECONDS : ℚ := 15

/-- The constant no_msg_cnt_warn of udp_server_task, line 127:
NO_MSG_TIMEOUT_SECONDS * (1000.0 / SERVER_TASK_SLEEP_TIME_MS) truncated to
int.  The double arithmetic is exact here (15.0 * 50.0 = 750.0), so the
truncating conversion is the floor. -/
def no_msg_cnt_warn : Int :=
  Rat.floor (NO_MSG_TIMEOUT_SECONDS * (1000 / SERVER_TASK_SLEEP_TIME_MS))

theorem no_msg_cnt_warn_eq : no_msg_cnt_warn = 750 := by
  have h : (NO_MSG_TIMEOUT_SECONDS * (1000 / SERVER_TASK_SLEEP_TIME_MS)) = 750 := by
    norm_num [NO_MSG_TIMEOUT_SECONDS, SERVER_TASK_SLEEP_TIME_MS]
  unfold no_msg_cnt_warn
  rw [h, Rat.floor_def']
  norm_num

/-- Modelled from the spec: the ControllerState of the PID Engine (spec
section 3); its C definition lives in pid.h / pid.c, which are not under
src/.  Floats are modelled as rationals. -/
structure ControllerState where
  setpoint : ℚ
  kp : ℚ
  ki : ℚ
  kd : ℚ
  integral_accumulator : ℚ
  previous_error : ℚ
  integral_min : ℚ
  integral_max : ℚ
  output_min : ℚ
  output_max : ℚ
  last_output : ℚ
  last_measurement : ℚ
  deriving DecidableEq, Repr

/-- Clamp a value to the closed range from lo to hi. -/
def clamp (x lo hi : ℚ) : ℚ := max lo (min x hi)

/-- Errors reported by the PID engine (spec section 7): a non-positive dt is
an invalid-configuration error. -/
inductive PidError where
  | invalidDt
  deriving DecidableEq, Repr

/-- Modelled from the spec: the PID Engine step operation (spec section 4.2);
its C implementation lives in pid.c, which is not under src/.
error = setpoint - measurement; the accumulator gains error * dt and is
clamped to the integral limits; derivative = (error - previous_error) / dt
with dt > 0 required; raw output = kp*error + ki*accumulator + kd*derivative,
clamped to the output limits; previous_error, last_output and
last_measurement are updated. -/
def PID_step (s : ControllerState) (measurement dt : ℚ) :
    Except PidError (ControllerState × ℚ) :=
  if dt ≤ 0 then Except.error PidError.invalidDt
  else
    let error := s.setpoint - measurement
    let acc := clamp (s.integral_accumulator + error * dt)
      s.integral_min s.integral_max
    let derivative := (error - s.previous_error) / dt
    let raw := s.kp * error + s.ki * acc + s.kd * derivative
    let output := clamp raw s.output_min s.output_max
    Except.ok
      ({ s with
          integral_accumulator := acc
          previous_error := error
          last_output := output
          last_measurement := measurement }, output)

/-- Run a sequence of step calls; an erroring step leaves the state unchanged
(spec section 7: rejected operations retain the prior state). -/
def stepRun (s : ControllerState) : List (ℚ × ℚ) → ControllerState
  | [] => s
  | (m, dt) :: rest =>
      match PID_step s m dt with
      | Except.ok (s', _) => stepRun s' rest
      | Except.error _ => stepRun s rest

theorem clamp_mem (x lo hi : ℚ) (h : lo ≤ hi) :
    lo ≤ clamp x lo hi ∧ clamp x lo hi ≤ hi := by
  constructor
  · exact le_max_left _ _
  · exact max_le h (min_le_right _ _)

theorem PID_step_limits (s : ControllerState) (m dt : ℚ) (s' : ControllerState)
    (out : ℚ) (h : PID_step s m dt = Except.ok (s', out)) :
    s'.integral_min = s.integral_min ∧ s'.integral_max = s.integral_max := by
  unfold PID_step at h
  by_cases hdt : dt ≤ 0
  · simp [hdt] at h
  · simp [hdt] at h
    obtain ⟨h1, _⟩ := h
    subst h1
    exact ⟨rfl, rfl⟩

theorem PID_step_acc_mem (s : ControllerState) (m dt : ℚ) (s' : ControllerState)
    (out : ℚ) (h : PID_step s m dt = Except.ok (s', out))
    (hlim : s.integral_min ≤ s.integral_max) :
    s.integral_min ≤ s'.integral_accumulator ∧
      s'.integral_accumulator ≤ s.integral_max := by
  unfold PID_step at h
  by_cases hdt : dt ≤ 0
  · simp [hdt] at h
  · simp [hdt] at h
    obtain ⟨h1, _⟩ := h
    subst h1
    exact clamp_mem _ _ _ hlim

/-- The request/response buffer, char buf[REQUEST_RESPONSE_BUF_SIZE]
(line 87): nine bytes mutated in place, modelled as a total function on the
index range. -/
abbrev Buf := Fin REQUEST_RESPONSE_BUF_SIZE → Byte

/-- The effect of recvfrom(sock, buf, REQUEST_RESPONSE_BUF_SIZE, ...)
(line 153) on the buffer: the datagram payload overwrites the first
min(payload length, buffer size) bytes; bytes past the received length keep
their previous contents.  A payload longer than the buffer is truncated. -/
def recvInto (buf : Buf) (payload : List Byte) : Buf :=
  fun i => payload.getD i.val (buf i)

/-- The type of the external dispatcher process_request (commandmanager.h,
not under src/): it reads the request bytes from the buffer, mutates the
shared controller state, and writes the response bytes into the same buffer
in place.  The request-loop model is parametric in it, since
udp_server_task calls it through an opaque prototype (line 173). -/
abbrev ProcessRequest := Buf → ControllerState → Buf × ControllerState

/-- The mutable state of one socket session of udp_server_task: the idle
counter no_msg_cnt (line 126), the flag is_stream_stop (line 128), the
request/response buffer (line 87, declared outside the socket loop so it
survives a socket restart), the shared PID controller state, and the
enabled flag of the Telemetry Pusher.  The last flag is modelled from the
spec (section 4.4): stream_stop and the stream task live in
commandmanager.c, which is not under src/. -/
structure ServerState where
  no_msg_cnt : Int
  is_stream_stop : Bool
  buf : Buf
  ctrl : ControllerState
  streamEnabled : Bool

/-- What the socket poll of one loop iteration observes: no pending data
(ioctl FIONREAD returns 0, line 141), pending data whose recvfrom fails
(line 156), or a received datagram with its source address and payload. -/
inductive RecvEvent where
  | noData
  | recvFault
  | datagram (src : Nat) (payload : List Byte)

/-- The guard of the suspension check at the top of each loop iteration
(line 132): no_msg_cnt >= no_msg_cnt_warn and the stream not yet stopped. -/
def suspendCheckFires (s : ServerState) : Bool :=
  (no_msg_cnt_warn ≤ s.no_msg_cnt) && (!s.is_stream_stop)

/-- The suspension check (lines 132-136): when the guard fires, stream_stop()
is called (disabling the Telemetry Pusher, per the spec: its code is in
commandmanager.c, not under src/) and is_stream_stop is set. -/
def applySuspendCheck (s : ServerState) : ServerState :=
  if suspendCheckFires s then
    { s with is_stream_stop := true, streamEnabled := false }
  else s

/-- One loop iteration on a tick with no pending data (lines 188-193): after
the suspension check, no_msg_cnt is incremented only when is_stream_stop is
unset, then the task sleeps for SERVER_TASK_SLEEP_TIME_MS. -/
def idleIter (s0 : ServerState) : ServerState :=
  let s := applySuspendCheck s0
  { s with
      no_msg_cnt := if s.is_stream_stop then s.no_msg_cnt else s.no_msg_cnt + 1 }

/-- The result of one iteration of the inner while loop of udp_server_task:
the successor state, the datagrams passed to sendto during the iteration
(source address and payload), and whether the iteration breaks out of the
inner loop (recvfrom error, line 158). -/
structure IterResult where
  state : ServerState
  sends : List (Nat × List Byte)
  breaks : Bool

/-- One iteration of the inner while loop of udp_server_task
(lines 130-194).  First the suspension check runs.  Then, by the observed
event: no pending data follows the idle branch; pending data with a failing
recvfrom breaks the loop; a received datagram is copied into the buffer,
process_request transforms the buffer in place and the controller state,
sendto echoes all REQUEST_RESPONSE_BUF_SIZE buffer bytes to the datagram's
source address, memset zeroes the buffer, no_msg_cnt is reset to 0 and
is_stream_stop is cleared.  Setting streamEnabled on a processed request is
modelled from the spec (section 4.4: the SUSPENDED to ACTIVE transition
re-enables the Telemetry Pusher; the stream control code is in
commandmanager.c, not under src/). -/
def serverIter (pr : ProcessRequest) (s0 : ServerState) (ev : RecvEvent) :
    IterResult :=
  let s := applySuspendCheck s0
  match ev with
  | RecvEvent.noData =>
      { state := idleIter s0, sends := [], breaks := false }
  | RecvEvent.recvFault =>
      { state := s, sends := [], breaks := true }
  | RecvEvent.datagram src payload =>
      let req := recvInto s.buf payload
      let pres := pr req s.ctrl
      { state :=
          { s with
              buf := fun _ => 0
              ctrl := pres.2
              no_msg_cnt := 0
              is_stream_stop := false
              streamEnabled := true }
        sends := [(src, List.ofFn pres.1)]
        breaks := false }

/-- The socket teardown and restart after a recvfrom fault (lines 196-200
followed by re-entry into the outer loop, lines 113-128): the socket is
shut down, closed and recreated, no_msg_cnt is reinitialised to 0 and
is_stream_stop to false.  The buffer (function scope, line 87), the
controller state and the stream flag are untouched. -/
def socketRestart (s : ServerState) : ServerState :=
  { s with no_msg_cnt := 0, is_stream_stop := false }

/-- The state on first entry of the inner loop (lines 126-128): no_msg_cnt
= 0, is_stream_stop = false.  The buffer is an uninitialised stack array, so
its contents are an arbitrary parameter; the controller state comes from the
bootstrap; the Telemetry Pusher starts enabled (the stream task is created
at process start, line 264, and the spec section 3 makes ACTIVE the initial
watchdog state). -/
def initState (buf0 : Buf) (c0 : ControllerState) : ServerState :=
  { no_msg_cnt := 0
    is_stream_stop := false
    buf := buf0
    ctrl := c0
    streamEnabled := true }

/-- The states of the server task reachable from some initial state by loop
iterations (with arbitrary observed events and dispatcher results) and
socket restarts. -/
inductive Reachable (pr : ProcessRequest) : ServerState → Prop where
  | start : ∀ b c, Reachable pr (initState b c)
  | step : ∀ s ev, Reachable pr s → Reachable pr ((serverIter pr s ev).state)
  | restart : ∀ s, Reachable pr s → Reachable pr (socketRestart s)

/-- A concrete controller state used to evaluate the theorems on concrete
inputs: all fields zero. -/
def ctrl0 : ControllerState :=
  ⟨0, 0, 0, 0, 0, 0, 0, 0, 0, 0, 0, 0⟩

/-- A concrete buffer used to evaluate the theorems on concrete inputs. -/
def buf0 : Buf := fun _ => 0

/-- A concrete instantiation of the external dispatcher parameter, used only
to evaluate the parametric theorems on concrete inputs: it echoes the
request buffer and leaves the controller state unchanged. -/
def prEcho : ProcessRequest := fun b c => (b, c)

/-- The server state after the watchdog has stopped the stream during a run
of pure idle ticks: the counter has saturated at the threshold, the flag is
set and the Telemetry Pusher is disabled. -/
def suspendedState (b : Buf) (c : ControllerState) : ServerState :=
  { no_msg_cnt := 750
    is_stream_stop := true
    buf := b
    ctrl := c
    streamEnabled := false }

theorem idleRun_le (b : Buf) (c : ControllerState) :
    ∀ n : Nat, n ≤ 750 →
      idleIter^[n] (initState b c) =
        { initState b c with no_msg_cnt := (n : Int) } := by
  intro n
  induction n with
  | zero =>
      intro _
      simp [initState]
  | succ n ih =>
      intro hn
      rw [Function.iterate_succ_apply', ih (by omega)]
      have hg : ¬ ((750 : Int) ≤ (n : Int)) := by omega
      simp [idleIter, applySuspendCheck, suspendCheckFires, initState,
        no_msg_cnt_warn_eq, hg]

theorem idleRun_751 (b : Buf) (c : ControllerState) :
    idleIter^[751] (initState b c) = suspendedState b c := by
  rw [Function.iterate_succ_apply', idleRun_le b c 750 le_rfl]
  simp [idleIter, applySuspendCheck, suspendCheckFires, initState,
    suspendedState, no_msg_cnt_warn_eq]

theorem idleIter_suspended (b : Buf) (c : ControllerState) :
    idleIter (suspendedState b c) = suspendedState b c := by
  simp [idleIter, applySuspendCheck, suspendCheckFires, suspendedState]

theorem idleRun_ge (b : Buf) (c : ControllerState) (m : Nat) :
    idleIter^[751 + m] (initState b c) = suspendedState b c := by
  induction m with
  | zero => exact idleRun_751 b c
  | succ m ih =>
      have h : 751 + (m + 1) = (751 + m) + 1 := by omega
      rw [h, Function.iterate_succ_apply', ih, idleIter_suspended]

theorem applySuspendCheck_no_msg_cnt (s : ServerState) :
    (applySuspendCheck s).no_msg_cnt = s.no_msg_cnt := by
  unfold applySuspendCheck
  split <;> rfl

theorem applySuspendCheck_buf (s : ServerState) :
    (applySuspendCheck s).buf = s.buf := by
  unfold applySuspendCheck
  split <;> rfl

theorem applySuspendCheck_ctrl (s : ServerState) :
    (applySuspendCheck s).ctrl = s.ctrl := by
  unfold applySuspendCheck
  split <;> rfl

/-- Claim C2: from the initial ACTIVE state with idle counter 0, and with the
threshold no_msg_cnt_warn evaluating to 750 (15.0 seconds divided by the
20 ms scheduling tick), a run of consecutive idle ticks leaves the watchdog
ACTIVE with the Telemetry Pusher enabled through the 750th idle tick, and
the suspension check — the point where stream_stop is called and the pusher
is disabled — fires exactly when 750 consecutive idle ticks have elapsed,
and at no earlier (or later) point of the idle run. -/
theorem C2_watchdog_timing (b : Buf) (c : ControllerState) (n : Nat) :
    no_msg_cnt_warn = 750 ∧
    suspendCheckFires (idleIter^[n] (initState b c)) = decide (n = 750) ∧
    (idleIter^[n] (initState b c)).streamEnabled = decide (n ≤ 750) := by
  rcases le_or_lt n 750 with hn | hn
  · rw [idleRun_le b c n hn]
    refine ⟨no_msg_cnt_warn_eq, ?_, ?_⟩
    · rcases Nat.eq_or_lt_of_le hn with h | h
      · subst h
        simp [suspendCheckFires, initState, no_msg_cnt_warn_eq]
      · have h1 : ¬ ((750 : Int) ≤ (n : Int)) := by omega
        have h2 : n ≠ 750 := by omega
        simp [suspendCheckFires, initState, no_msg_cnt_warn_eq, h1, h2]
    · simp [initState, hn]
  · obtain ⟨m, rfl⟩ : ∃ m, n = 751 + m := ⟨n - 751, by omega⟩
    rw [idleRun_ge]
    refine ⟨no_msg_cnt_warn_eq, ?_, ?_⟩
    · have h2 : 751 + m ≠ 750 := by omega
      simp [suspendCheckFires, suspendedState, h2]
    · have h3 : ¬ (751 + m ≤ 750) := by omega
      simp [suspendedState, h3]

/-- Claim C4 counterexample: in the SUSPENDED state an idle tick does not
increment the idle counter.  After 751 consecutive idle ticks from the
initial state the watchdog is suspended, and one further idle tick leaves
no_msg_cnt unchanged instead of incrementing it by 1. -/
theorem C4_counterexample :
    (idleIter^[751] (initState buf0 ctrl0)).is_stream_stop = true ∧
    (idleIter (idleIter^[751] (initState buf0 ctrl0))).no_msg_cnt =
      (idleIter^[751] (initState buf0 ctrl0)).no_msg_cnt := by
  rw [idleRun_751]
  exact ⟨rfl, by rw [idleIter_suspended]⟩

/-- Claim C4 (amended): a scheduling tick with no request processed
increments no_msg_cnt by exactly 1 while the stream-stop flag is unset and
the counter is below the threshold (the ACTIVE state), but once the
stream-stop flag is set (SUSPENDED) an idle tick leaves the counter
unchanged: the counter saturates rather than incrementing in both states. -/
theorem C4_idle_increment (s : ServerState) :
    (s.is_stream_stop = false → s.no_msg_cnt < no_msg_cnt_warn →
      (idleIter s).no_msg_cnt = s.no_msg_cnt + 1) ∧
    (s.is_stream_stop = true → (idleIter s).no_msg_cnt = s.no_msg_cnt) := by
  constructor
  · intro h1 h2
    have hg : suspendCheckFires s = false := by
      simp [suspendCheckFires, h1]
      omega
    simp [idleIter, applySuspendCheck, hg, h1]
  · intro h1
    have hg : suspendCheckFires s = false := by
      simp [suspendCheckFires, h1]
    simp [idleIter, applySuspendCheck, hg, h1]

theorem C4_idle_increment_witness :
    (idleIter (initState buf0 ctrl0)).no_msg_cnt =
        (initState buf0 ctrl0).no_msg_cnt + 1 ∧
    (idleIter (suspendedState buf0 ctrl0)).no_msg_cnt =
      (suspendedState buf0 ctrl0).no_msg_cnt := by
  constructor
  · exact (C4_idle_increment (initState buf0 ctrl0)).1 rfl
      (by rw [no_msg_cnt_warn_eq]; decide)
  · exact (C4_idle_increment (suspendedState buf0 ctrl0)).2 rfl

theorem idleIter_cnt_bound (s : ServerState) (h0 : 0 ≤ s.no_msg_cnt)
    (h1 : s.no_msg_cnt ≤ 750) :
    0 ≤ (idleIter s).no_msg_cnt ∧ (idleIter s).no_msg_cnt ≤ 750 := by
  unfold idleIter applySuspendCheck suspendCheckFires
  rcases hs : s.is_stream_stop with _ | _
  · by_cases hw : no_msg_cnt_warn ≤ s.no_msg_cnt
    · simp [hs, hw]
      omega
    · simp [hs, hw]
      rw [no_msg_cnt_warn_eq] at hw
      omega
  · simp [hs]
    omega

/-- Claim C9: the idle counter is bounded: in every reachable state of the
server task, 0 <= no_msg_cnt <= no_msg_cnt_warn (750); increments stop once
the stream-stop flag is set, so the counter never grows past the threshold
and cannot overflow however long the client stays silent. -/
theorem C9_counter_bounded (pr : ProcessRequest) (s : ServerState)
    (h : Reachable pr s) :
    0 ≤ s.no_msg_cnt ∧ s.no_msg_cnt ≤ no_msg_cnt_warn := by
  rw [no_msg_cnt_warn_eq]
  induction h with
  | start b c =>
      simp [initState]
  | step s ev hr ih =>
      rcases ev with _ | _ | ⟨src, p⟩
      · exact idleIter_cnt_bound s ih.1 ih.2
      · simp only [serverIter, applySuspendCheck_no_msg_cnt]
        exact ih
      · simp only [serverIter]
        omega
  | restart s hr ih =>
      simp [socketRestart]

theorem C9_counter_bounded_witness :
    0 ≤ (initState buf0 ctrl0).no_msg_cnt ∧
      (initState buf0 ctrl0).no_msg_cnt ≤ no_msg_cnt_warn :=
  C9_counter_bounded prEcho (initState buf0 ctrl0)
    (Reachable.start buf0 ctrl0)

theorem serverIter_datagram_sends (pr : ProcessRequest) (s : ServerState)
    (src : Nat) (p : List Byte) :
    (serverIter pr s (RecvEvent.datagram src p)).sends =
      [(src, List.ofFn (pr (recvInto s.buf p) s.ctrl).1)] := by
  simp only [serverIter, applySuspendCheck_buf, applySuspendCheck_ctrl]

theorem serverIter_datagram_ctrl (pr : ProcessRequest) (s : ServerState)
    (src : Nat) (p : List Byte) :
    (serverIter pr s (RecvEvent.datagram src p)).state.ctrl =
      (pr (recvInto s.buf p) s.ctrl).2 := by
  simp only [serverIter, applySuspendCheck_buf, applySuspendCheck_ctrl]

/-- Claim C1 counterexample: a received datagram of 3 bytes — not the fixed
frame size of 9 bytes — is not discarded: the server still sends one reply
datagram back to the sender (the code has no length check on the recvfrom
result). -/
theorem C1_counterexample :
    (3 : Nat) ≠ REQUEST_RESPONSE_BUF_SIZE ∧
    (serverIter prEcho (initState buf0 ctrl0)
        (RecvEvent.datagram 7 [1, 2, 3])).sends.length = 1 := by
  constructor
  · decide
  · rfl

/-- Claim C1 (amended): the server performs no length validation: every
received datagram, of any byte length (in particular a length other than
the 9-byte frame size), has its first min(length, 9) bytes copied into the
buffer, is passed to process_request (so the controller state is updated by
the dispatcher just as for a full-size frame), and is answered with exactly
one reply datagram sent to the sender's address; no datagram is discarded
as malformed. -/
theorem C1_no_length_validation (pr : ProcessRequest) (s : ServerState)
    (src : Nat) (p : List Byte)
    (hlen : p.length ≠ REQUEST_RESPONSE_BUF_SIZE) :
    (serverIter pr s (RecvEvent.datagram src p)).sends =
      [(src, List.ofFn (pr (recvInto s.buf p) s.ctrl).1)] ∧
    (serverIter pr s (RecvEvent.datagram src p)).state.ctrl =
      (pr (recvInto s.buf p) s.ctrl).2 :=
  ⟨serverIter_datagram_sends pr s src p, serverIter_datagram_ctrl pr s src p⟩

theorem C1_no_length_validation_witness :
    (serverIter prEcho (initState buf0 ctrl0)
        (RecvEvent.datagram 7 [1, 2, 3])).sends =
      [(7, List.ofFn (prEcho (recvInto (initState buf0 ctrl0).buf [1, 2, 3])
          (initState buf0 ctrl0).ctrl).1)] ∧
    (serverIter prEcho (initState buf0 ctrl0)
        (RecvEvent.datagram 7 [1, 2, 3])).state.ctrl =
      (prEcho (recvInto (initState buf0 ctrl0).buf [1, 2, 3])
        (initState buf0 ctrl0).ctrl).2 :=
  C1_no_length_validation prEcho (initState buf0 ctrl0) 7 [1, 2, 3]
    (by decide)

/-- Claim C3: from a state with the stream-stop flag set (SUSPENDED), the
next successfully received request frame returns the watchdog to ACTIVE:
the stream-stop flag is cleared, the Telemetry Pusher is re-enabled
(modelled from the spec, section 4.4: the stream control code is in
commandmanager.c, not under src/), and the idle counter is reset to 0. -/
theorem C3_recovery (pr : ProcessRequest) (s : ServerState) (src : Nat)
    (p : List Byte) (h : s.is_stream_stop = true) :
    (serverIter pr s (RecvEvent.datagram src p)).state.is_stream_stop = false ∧
    (serverIter pr s (RecvEvent.datagram src p)).state.streamEnabled = true ∧
    (serverIter pr s (RecvEvent.datagram src p)).state.no_msg_cnt = 0 :=
  ⟨rfl, rfl, rfl⟩

theorem C3_recovery_witness :
    (serverIter prEcho (suspendedState buf0 ctrl0)
        (RecvEvent.datagram 7 [0, 0, 0, 0, 0, 0, 0, 0, 0])).state.is_stream_stop
        = false ∧
    (serverIter prEcho (suspendedState buf0 ctrl0)
        (RecvEvent.datagram 7 [0, 0, 0, 0, 0, 0, 0, 0, 0])).state.streamEnabled
        = true ∧
    (serverIter prEcho (suspendedState buf0 ctrl0)
        (RecvEvent.datagram 7 [0, 0, 0, 0, 0, 0, 0, 0, 0])).state.no_msg_cnt
        = 0 :=
  C3_recovery prEcho (suspendedState buf0 ctrl0) 7
    [0, 0, 0, 0, 0, 0, 0, 0, 0] rfl

/-- Claim C5: every successfully received datagram produces exactly one
reply, addressed to that datagram's source address, while a tick with no
pending data and a failing recvfrom each send nothing; each datagram is
handled to completion within its own iteration, so no reassembly across
datagrams occurs. -/
theorem C5_one_reply (pr : ProcessRequest) (s : ServerState) (src : Nat)
    (p : List Byte) :
    (serverIter pr s (RecvEvent.datagram src p)).sends.map Prod.fst = [src] ∧
    (serverIter pr s RecvEvent.noData).sends = [] ∧
    (serverIter pr s RecvEvent.recvFault).sends = [] :=
  ⟨rfl, rfl, rfl⟩

/-- Claim C6: requests and responses share the identical fixed layout of
total size 1 + 2*4 = 9 bytes (REQUEST_RESPONSE_BUF_SIZE, sizeof(char) +
2*sizeof(float)); the response is produced by process_request overwriting
the same buffer that held the request and echoing it back, and every reply
datagram is exactly that fixed size. -/
theorem C6_frame_layout (pr : ProcessRequest) (s : ServerState) (src : Nat)
    (p : List Byte) :
    REQUEST_RESPONSE_BUF_SIZE = sizeofChar + 2 * sizeofFloat ∧
    REQUEST_RESPONSE_BUF_SIZE = 9 ∧
    (serverIter pr s (RecvEvent.datagram src p)).sends =
      [(src, List.ofFn (pr (recvInto s.buf p) s.ctrl).1)] ∧
    (serverIter pr s (RecvEvent.datagram src p)).sends.map
        (fun out => out.2.length) = [REQUEST_RESPONSE_BUF_SIZE] := by
  refine ⟨rfl, rfl, serverIter_datagram_sends pr s src p, ?_⟩
  rw [serverIter_datagram_sends pr s src p]
  simp [REQUEST_RESPONSE_BUF_SIZE, sizeofChar, sizeofFloat]

/-- Claim C7: when recvfrom reports an error the inner loop breaks, after
which the socket is shut down, closed and recreated by the outer loop; the
fault iteration sends no datagram, and the ControllerState is left
completely unchanged by the whole fault-and-restart sequence. -/
theorem C7_fault_restart (pr : ProcessRequest) (s : ServerState) :
    (serverIter pr s RecvEvent.recvFault).breaks = true ∧
    (serverIter pr s RecvEvent.recvFault).sends = [] ∧
    (socketRestart (serverIter pr s RecvEvent.recvFault).state).ctrl =
      s.ctrl ∧
    (socketRestart (serverIter pr s RecvEvent.recvFault).state).no_msg_cnt
      = 0 ∧
    (socketRestart (serverIter pr s RecvEvent.recvFault).state).is_stream_stop
      = false := by
  refine ⟨rfl, rfl, ?_, rfl, rfl⟩
  simp only [serverIter, socketRestart, applySuspendCheck_ctrl]

/-- Claim C10: the buffer is zeroed (memset, line 181) after each reply is
sent, so processing any datagram leaves an all-zero buffer behind; hence
when a later datagram shorter than the frame is received, every buffer byte
at or beyond the received length is zero at processing time and the echoed
reply carries no residual payload bytes from a previous request.  For the
very first datagram this fails: the buffer is an uninitialised stack array,
and a nonzero initial buffer leaves a nonzero residual byte beyond the
received length, as the final conjunct exhibits. -/
theorem C10_buffer_zeroing (pr : ProcessRequest) (s : ServerState)
    (src : Nat) (p q : List Byte) (i : Fin REQUEST_RESPONSE_BUF_SIZE)
    (hz : ∀ j, s.buf j = 0) (hi : p.length ≤ i.val) :
    recvInto s.buf p i = 0 ∧
    (∀ j, (serverIter pr s (RecvEvent.datagram src q)).state.buf j = 0) ∧
    (∃ b1 : Buf, ∃ j : Fin REQUEST_RESPONSE_BUF_SIZE,
      [5].length ≤ j.val ∧ recvInto b1 [5] j ≠ 0) := by
  refine ⟨?_, fun j => rfl, ?_⟩
  · unfold recvInto
    rw [List.getD_eq_default _ _ hi]
    exact hz i
  · refine ⟨fun _ => 1, ⟨1, by decide⟩, by decide, ?_⟩
    unfold recvInto
    rw [List.getD_eq_default]
    · decide
    · decide

theorem C10_buffer_zeroing_witness :
    recvInto (initState buf0 ctrl0).buf [5] ⟨2, by decide⟩ = 0 ∧
    (∀ j, (serverIter prEcho (initState buf0 ctrl0)
        (RecvEvent.datagram 7 [5])).state.buf j = 0) ∧
    (∃ b1 : Buf, ∃ j : Fin REQUEST_RESPONSE_BUF_SIZE,
      [5].length ≤ j.val ∧ recvInto b1 [5] j ≠ 0) :=
  C10_buffer_zeroing prEcho (initState buf0 ctrl0) 7 [5] [5] ⟨2, by decide⟩
    (fun _ => rfl) (by decide)

/-- Claim C8: the anti-windup invariant of the PID engine: for every
sequence of step calls from a state whose accumulator lies within its
integral limits (as after init), the integral accumulator remains within
the integral limits after each step — in particular, repeatedly stepping
with a constant large positive error and nonzero ki never pushes the
accumulator past integral_max — and the limits themselves are unchanged by
stepping. -/
theorem C8_anti_windup (s : ControllerState) (inputs : List (ℚ × ℚ))
    (hlim : s.integral_min ≤ s.integral_max)
    (hlo : s.integral_min ≤ s.integral_accumulator)
    (hhi : s.integral_accumulator ≤ s.integral_max) :
    s.integral_min ≤ (stepRun s inputs).integral_accumulator ∧
    (stepRun s inputs).integral_accumulator ≤ s.integral_max ∧
    (stepRun s inputs).integral_min = s.integral_min ∧
    (stepRun s inputs).integral_max = s.integral_max := by
  induction inputs generalizing s with
  | nil => exact ⟨hlo, hhi, rfl, rfl⟩
  | cons hd tl ih =>
      obtain ⟨m, dt⟩ := hd
      simp only [stepRun]
      cases hstep : PID_step s m dt with
      | error e => exact ih s hlim hlo hhi
      | ok pair =>
          obtain ⟨s', out⟩ := pair
          have hl := PID_step_limits s m dt s' out hstep
          have ha := PID_step_acc_mem s m dt s' out hstep hlim
          have hres := ih s' (by rw [hl.1, hl.2]; exact hlim)
            (by rw [hl.1]; exact ha.1) (by rw [hl.2]; exact ha.2)
          refine ⟨?_, ?_, ?_, ?_⟩
          · rw [← hl.1]; exact hres.1
          · rw [← hl.2]; exact hres.2.1
          · rw [hres.2.2.1, hl.1]
          · rw [hres.2.2.2, hl.2]

/-- A concrete controller state used to evaluate the anti-windup theorem:
setpoint 100 with measurement 0 gives a constant large positive error, ki
is nonzero, and the integral limits are -5 to 5 with the accumulator at
0. -/
def ctrlW : ControllerState :=
  ⟨100, 1, 1, 0, 0, 0, -5, 5, -10, 10, 0, 0⟩

theorem C8_anti_windup_witness :
    ctrlW.integral_min ≤
        (stepRun ctrlW [(0, 1), (0, 1), (0, 1)]).integral_accumulator ∧
    (stepRun ctrlW [(0, 1), (0, 1), (0, 1)]).integral_accumulator ≤
        ctrlW.integral_max ∧
    (stepRun ctrlW [(0, 1), (0, 1), (0, 1)]).integral_min =
        ctrlW.integral_min ∧
    (stepRun ctrlW [(0, 1), (0, 1), (0, 1)]).integral_max =
        ctrlW.integral_max :=
  C8_anti_windup ctrlW [(0, 1), (0, 1), (0, 1)]
    (by norm_num [ctrlW]) (by norm_num [ctrlW]) (by norm_num [ctrlW])

end PidServer
